import Mathlib

/-!
Shallow embedding of the core of the nba-analysis data collector
(src/src/data/nba_data_collector.py) and proofs about it.

Python scalar values flowing through the collector (dict/DataFrame cells,
SQL parameters) are modelled by `PyVal`: a number (modelled as a rational),
a string, or `None`.  Python truthiness on these values is `pyTruthy`.
Fallible Python code is modelled with `Option`/`Except`.
-/

set_option maxRecDepth 10000

inductive PyVal where
  | vNum (q : ℚ)
  | vStr (s : String)
  | vNone
deriving DecidableEq, Repr

/-- Python truthiness: `0`, `0.0`, `""` and `None` are falsy. -/
def pyTruthy : PyVal → Bool
  | .vNum q => q != 0
  | .vStr s => s != ""
  | .vNone => false

/-- Python `a or b` on scalar values. -/
def pyOrV (a b : PyVal) : PyVal := if pyTruthy a then a else b

/-- `dict.get(key, default)`: the stored value when the key is present
(even when that value is `None`), otherwise the default. -/
def pyGet (r : List (String × PyVal)) (k : String) (d : PyVal) : PyVal :=
  match r.lookup k with
  | some v => v
  | none => d

/-- `dict[key]`: `some` value when present, `none` models the raised KeyError. -/
def pyGetStrict (r : List (String × PyVal)) (k : String) : Option PyVal :=
  r.lookup k

/-! ## MetricCalculator: `_calculate_player_value`

The input tuple `(player_id, full_name, position, ppg, rpg, apg, spg, bpg,
tov, mpg, fg_pct, three_pct, ft_pct, plus_minus, per, ts_pct, usage_rate,
win_shares, vorp, annual_salary)` comes from a SQL query, so every numeric
slot may be NULL: modelled as `Option ℚ`. -/

structure PlayerTuple where
  player_id : ℕ
  full_name : Option String
  pos : Option String
  ppg : Option ℚ
  rpg : Option ℚ
  apg : Option ℚ
  spg : Option ℚ
  bpg : Option ℚ
  tov : Option ℚ
  mpg : Option ℚ
  fg_pct : Option ℚ
  three_pct : Option ℚ
  ft_pct : Option ℚ
  plus_minus : Option ℚ
  per : Option ℚ
  ts_pct : Option ℚ
  usage_rate : Option ℚ
  win_shares : Option ℚ
  vorp : Option ℚ
  annual_salary : Option ℚ
deriving DecidableEq, Repr

structure ValueMetrics where
  player_id : ℕ
  season_id : String
  pos : Option String
  total_team_improvement : ℚ
  salary_cost : ℚ
  value_per_dollar : ℚ
  league_average_value_per_dollar : ℚ
  value_vs_average : ℚ
  efficiency_rating : ℚ
  cost_efficiency_score : ℚ
deriving DecidableEq, Repr

/-- Truthiness of an optional SQL number: `None` and `0` are falsy. -/
def qTruthy : Option ℚ → Bool
  | none => false
  | some q => q != 0

/-- Python `all([...])` over optional numbers. -/
def pyAllQ (l : List (Option ℚ)) : Bool := l.all qTruthy

/-- Python `x or 0` on an optional number. -/
def qOrZero (x : Option ℚ) : ℚ :=
  match x with
  | none => 0
  | some q => if q = 0 then 0 else q

/-- The numeric value behind an optional SQL number (used after a
truthiness check has established it is a non-null number). -/
def qVal (x : Option ℚ) : ℚ := x.getD 0

/-- `_get_position_average`: hard-coded per-position league averages,
`dict.get(position, 0.00012)`. -/
def getPositionAverage (pos : Option String) : ℚ :=
  match pos with
  | some "PG" => 15/100000
  | some "SG" => 12/100000
  | some "SF" => 13/100000
  | some "PF" => 11/100000
  | some "C" => 10/100000
  | _ => 12/100000

/-- `_calculate_player_value`, transcribed from the source.
`if not all([ppg, rpg, apg, spg, bpg, tov, mpg, annual_salary]): return None`;
the improvement expression is
`ppg * 1.0 + rpg * 0.8 + apg * 0.9 + spg * 1.2 + bpg * 1.1 - tov * -0.8`
(note the source's double negative: it subtracts `tov * (-0.8)`);
`value_per_dollar = total_improvement / annual_salary if annual_salary > 0 else 0`. -/
def calcPlayerValue (t : PlayerTuple) : Option ValueMetrics :=
  if pyAllQ [t.ppg, t.rpg, t.apg, t.spg, t.bpg, t.tov, t.mpg, t.annual_salary] then
    let ppg := qVal t.ppg
    let rpg := qVal t.rpg
    let apg := qVal t.apg
    let spg := qVal t.spg
    let bpg := qVal t.bpg
    let tov := qVal t.tov
    let annual_salary := qVal t.annual_salary
    let total_improvement :=
      ppg * 1 + rpg * (8/10) + apg * (9/10) + spg * (12/10) + bpg * (11/10)
        - tov * (-(8/10))
    let value_per_dollar := if annual_salary > 0 then total_improvement / annual_salary else 0
    let league_average := getPositionAverage t.pos
    let value_vs_average := value_per_dollar - league_average
    let efficiency_rating :=
      qOrZero t.fg_pct * (3/10) + qOrZero t.three_pct * (2/10)
        + qOrZero t.ft_pct * (1/10) + qOrZero t.per / 100 * (4/10)
    let cost_efficiency_score := efficiency_rating * value_per_dollar * 1000
    some {
      player_id := t.player_id
      season_id := "2024-25"
      pos := t.pos
      total_team_improvement := total_improvement
      salary_cost := annual_salary
      value_per_dollar := value_per_dollar
      league_average_value_per_dollar := league_average
      value_vs_average := value_vs_average
      efficiency_rating := efficiency_rating
      cost_efficiency_score := cost_efficiency_score }
  else none

/-- A concrete all-ones input tuple (every rate stat 1.0, salary $1). -/
def tupOnes : PlayerTuple :=
  { player_id := 7, full_name := some "Test Player", pos := some "PG"
    ppg := some 1, rpg := some 1, apg := some 1, spg := some 1, bpg := some 1
    tov := some 1, mpg := some 1
    fg_pct := some (1/2), three_pct := some (1/3), ft_pct := some (3/4)
    plus_minus := some 0, per := some 15, ts_pct := none, usage_rate := none
    win_shares := none, vorp := none, annual_salary := some 1 }

/-- `tupOnes` with a negative salary instead of $1. -/
def tupNegSalary : PlayerTuple := { tupOnes with annual_salary := some (-1) }

/-- `tupOnes` with zero turnovers per game. -/
def tupZeroTov : PlayerTuple := { tupOnes with tov := some 0 }

/-- The spec's documented improvement formula, stated in its own words:
a fixed linear combination with weights points ×1.0, rebounds ×0.8,
assists ×0.9, steals ×1.2, blocks ×1.1, turnovers ×−0.8. -/
def specImprovement (ppg rpg apg spg bpg tov : ℚ) : ℚ :=
  ppg * 1 + rpg * (8/10) + apg * (9/10) + spg * (12/10) + bpg * (11/10) + tov * (-(8/10))

theorem qTruthy_false_iff (x : Option ℚ) : qTruthy x = false ↔ x = none ∨ x = some 0 := by
  cases x with
  | none => simp [qTruthy]
  | some q => simp [qTruthy]

/-- C2: the composite improvement score does NOT weight turnovers by −0.8.
The source computes `... + bpg * 1.1 - tov * -0.8`, i.e. it SUBTRACTS
`tov * (-0.8)`, adding `+0.8 * tov`.  On the all-ones input the code yields
5.8 where the documented formula (turnovers ×−0.8) yields 4.2. -/
theorem C2_improvement_turnover_sign :
    (calcPlayerValue tupOnes).map (·.total_team_improvement) = some (29/5)
      ∧ specImprovement 1 1 1 1 1 1 = 21/5
      ∧ (29/5 : ℚ) ≠ 21/5 := by
  refine ⟨?_, by norm_num [specImprovement], by norm_num⟩
  simp [calcPlayerValue, tupOnes, pyAllQ, qTruthy, qVal]
  norm_num

/-- C9 (counterexample to the claim as stated): a player tuple whose
compensation is strictly negative (hence non-positive) is NOT skipped:
the calculator returns a metric for it. -/
theorem C9_negative_salary_not_skipped :
    (calcPlayerValue tupNegSalary).isSome = true := by decide

/-- C9 (amended): the calculator returns no metric exactly when one of the
eight checked inputs (ppg, rpg, apg, spg, bpg, tov, mpg, annual_salary) is
NULL or exactly 0 — Python falsiness, not sign.  In particular a
present-but-zero stat (e.g. zero turnovers per game) is treated like a
missing one; a strictly negative salary, however, is not skipped. -/
theorem C9_skip_on_falsy_stats (t : PlayerTuple) :
    (calcPlayerValue t = none ↔
      ((t.ppg = none ∨ t.ppg = some 0) ∨ (t.rpg = none ∨ t.rpg = some 0)
        ∨ (t.apg = none ∨ t.apg = some 0) ∨ (t.spg = none ∨ t.spg = some 0)
        ∨ (t.bpg = none ∨ t.bpg = some 0) ∨ (t.tov = none ∨ t.tov = some 0)
        ∨ (t.mpg = none ∨ t.mpg = some 0)
        ∨ (t.annual_salary = none ∨ t.annual_salary = some 0)))
      ∧ calcPlayerValue { t with tov := some 0 } = none := by
  constructor
  · have hbase : calcPlayerValue t = none ↔
        pyAllQ [t.ppg, t.rpg, t.apg, t.spg, t.bpg, t.tov, t.mpg, t.annual_salary] = false := by
      by_cases h : pyAllQ [t.ppg, t.rpg, t.apg, t.spg, t.bpg, t.tov, t.mpg, t.annual_salary] = true
      · simp [calcPlayerValue, h]
      · simp only [Bool.not_eq_true] at h
        simp [calcPlayerValue, h]
    rw [hbase, pyAllQ, List.all_eq_false]
    constructor
    · rintro ⟨x, hx, hfx⟩
      rw [Bool.not_eq_true, qTruthy_false_iff] at hfx
      simp only [List.mem_cons, List.not_mem_nil, or_false] at hx
      rcases hx with rfl | rfl | rfl | rfl | rfl | rfl | rfl | rfl <;> tauto
    · intro h
      rcases h with h | h | h | h | h | h | h | h
      exacts [⟨t.ppg, by simp, by rw [Bool.not_eq_true, qTruthy_false_iff]; exact h⟩,
        ⟨t.rpg, by simp, by rw [Bool.not_eq_true, qTruthy_false_iff]; exact h⟩,
        ⟨t.apg, by simp, by rw [Bool.not_eq_true, qTruthy_false_iff]; exact h⟩,
        ⟨t.spg, by simp, by rw [Bool.not_eq_true, qTruthy_false_iff]; exact h⟩,
        ⟨t.bpg, by simp, by rw [Bool.not_eq_true, qTruthy_false_iff]; exact h⟩,
        ⟨t.tov, by simp, by rw [Bool.not_eq_true, qTruthy_false_iff]; exact h⟩,
        ⟨t.mpg, by simp, by rw [Bool.not_eq_true, qTruthy_false_iff]; exact h⟩,
        ⟨t.annual_salary, by simp, by rw [Bool.not_eq_true, qTruthy_false_iff]; exact h⟩]
  · simp [calcPlayerValue, pyAllQ, qTruthy]

/-- C9 witness: for the concrete all-ones tuple, setting turnovers to
exactly 0 makes the calculator return no metric. -/
theorem C9_skip_on_falsy_stats_witness :
    calcPlayerValue { tupOnes with tov := some 0 } = none :=
  (C9_skip_on_falsy_stats tupOnes).2

/-- C10: whenever the calculator returns a metric, the salary it divides by
is non-zero, a non-positive salary yields `value_per_dollar = 0` (the guard
branch), and a strictly positive salary yields the true quotient — so the
division is never a division by zero. -/
theorem C10_value_per_dollar_guard (t : PlayerTuple) (m : ValueMetrics)
    (hm : calcPlayerValue t = some m) :
    qVal t.annual_salary ≠ 0
      ∧ (qVal t.annual_salary ≤ 0 → m.value_per_dollar = 0)
      ∧ (0 < qVal t.annual_salary →
          m.value_per_dollar = m.total_team_improvement / qVal t.annual_salary) := by
  have hcond : pyAllQ [t.ppg, t.rpg, t.apg, t.spg, t.bpg, t.tov, t.mpg, t.annual_salary] = true := by
    by_contra h
    simp only [Bool.not_eq_true] at h
    rw [calcPlayerValue, h] at hm
    simp at hm
  have hsal : qTruthy t.annual_salary = true := by
    simp [pyAllQ, List.all, Bool.and_eq_true] at hcond
    tauto
  have hne : qVal t.annual_salary ≠ 0 := by
    cases hs : t.annual_salary with
    | none => rw [hs] at hsal; simp [qTruthy] at hsal
    | some q => rw [hs] at hsal; simpa [qTruthy, qVal] using hsal
  rw [calcPlayerValue, hcond] at hm
  simp only [if_pos] at hm
  refine ⟨hne, ?_, ?_⟩
  · intro hle
    have hnlt : ¬ (0 : ℚ) < qVal t.annual_salary := not_lt.2 hle
    cases hm
    simp [hnlt]
  · intro hpos
    cases hm
    simp [hpos]

/-- C10 witness: for the concrete tuple with salary −1 the calculator
returns a metric whose `value_per_dollar` is the guarded 0. -/
theorem C10_value_per_dollar_guard_witness :
    (calcPlayerValue tupNegSalary).map (·.value_per_dollar) = some 0 := by
  cases hm : calcPlayerValue tupNegSalary with
  | none =>
      have hs : (calcPlayerValue tupNegSalary).isSome = true := by decide
      rw [hm] at hs
      simp at hs
  | some m =>
      have h := (C10_value_per_dollar_guard tupNegSalary m hm).2.1
        (by norm_num [tupNegSalary, tupOnes, qVal])
      simp [h]

/-! ## RetryExecutor: `_make_api_request` and `_make_web_request`

`for attempt in range(self.max_retries)` with a try/except body.  The
operation under retry is modelled as a pure function from the attempt
number to an `Except` outcome; sleeping is irrelevant to the claims and is
not modelled.  The result records the list of attempt numbers at which the
operation was actually invoked, together with the function's outcome:
`none` means the loop fell through (only possible when `max_retries = 0`),
`some (.error e)` models a re-raised exception, and for the web variant
`some (.ok none)` models `return None`. -/

def apiLoop {E A : Type} (op : Nat → Except E A) (maxRetries : Nat) :
    List Nat → List Nat × Option (Except E A)
  | [] => ([], none)
  | attempt :: rest =>
    match op attempt with
    | .ok a => ([attempt], some (.ok a))
    | .error e =>
      if attempt = maxRetries - 1 then ([attempt], some (.error e))
      else
        let r := apiLoop op maxRetries rest
        (attempt :: r.1, r.2)

/-- `_make_api_request`: on the final failed attempt the exception is
re-raised (`raise`). -/
def makeApiRequest {E A : Type} (maxRetries : Nat) (op : Nat → Except E A) :
    List Nat × Option (Except E A) :=
  apiLoop op maxRetries (List.range maxRetries)

def webLoop {E A : Type} (op : Nat → Except E A) (maxRetries : Nat) :
    List Nat → List Nat × Option (Except E (Option A))
  | [] => ([], none)
  | attempt :: rest =>
    match op attempt with
    | .ok a => ([attempt], some (.ok (some a)))
    | .error _e =>
      if attempt = maxRetries - 1 then ([attempt], some (.ok none))
      else
        let r := webLoop op maxRetries rest
        (attempt :: r.1, r.2)

/-- `_make_web_request`: on the final failed attempt the function logs and
`return None` — the exception is swallowed, not re-raised. -/
def makeWebRequest {E A : Type} (maxRetries : Nat) (op : Nat → Except E A) :
    List Nat × Option (Except E (Option A)) :=
  webLoop op maxRetries (List.range maxRetries)

/-- An operation that raises on every attempt. -/
def boomOp : Nat → Except String Nat := fun _ => Except.error "boom"

theorem apiLoop_all_fail {E A : Type} (op : Nat → Except E A) (e : Nat → E) (mr : Nat)
    (herr : ∀ i, op i = .error (e i)) :
    ∀ k a, a + k = mr → 0 < k →
      apiLoop op mr (List.range' a k) = (List.range' a k, some (.error (e (mr - 1)))) := by
  intro k
  induction k with
  | zero => intro a _ h; omega
  | succ n ih =>
    intro a hak _
    by_cases hn : n = 0
    · subst hn
      simp only [List.range', apiLoop, herr a]
      have : a = mr - 1 := by omega
      rw [if_pos this, this]
    · have hlt : a ≠ mr - 1 := by omega
      simp only [List.range', apiLoop, herr a]
      rw [if_neg hlt]
      have := ih (a + 1) (by omega) (by omega)
      simp [this]

theorem webLoop_all_fail {E A : Type} (op : Nat → Except E A) (e : Nat → E) (mr : Nat)
    (herr : ∀ i, op i = .error (e i)) :
    ∀ k a, a + k = mr → 0 < k →
      webLoop op mr (List.range' a k) = (List.range' a k, some (.ok none)) := by
  intro k
  induction k with
  | zero => intro a _ h; omega
  | succ n ih =>
    intro a hak _
    by_cases hn : n = 0
    · subst hn
      simp only [List.range', webLoop, herr a]
      have : a = mr - 1 := by omega
      rw [if_pos this]
    · have hlt : a ≠ mr - 1 := by omega
      simp only [List.range', webLoop, herr a]
      rw [if_neg hlt]
      have := ih (a + 1) (by omega) (by omega)
      simp [this]

/-- C4 (counterexample to the claim as stated): a web fetch whose operation
raises on all 5 attempts returns `None` (`some (.ok none)`) — the final
error is swallowed and converted to an empty result, not re-raised. -/
theorem C4_web_error_swallowed :
    makeWebRequest 5 boomOp = ([0, 1, 2, 3, 4], some (.ok none))
      ∧ (makeWebRequest 5 boomOp).2 ≠ some (.error "boom") :=
  ⟨rfl, fun h => by simp [makeWebRequest, webLoop, boomOp] at h⟩

/-- C4 (amended): an always-raising operation is invoked exactly
`max_retries` times by both wrappers; `_make_api_request` then re-raises
the error from the final attempt, while `_make_web_request` swallows it
and returns `None`. -/
theorem C4_retry_exhaustion {E A : Type} (mr : Nat) (op : Nat → Except E A)
    (e : Nat → E) (hmr : 1 ≤ mr) (herr : ∀ i, op i = .error (e i)) :
    makeApiRequest mr op = (List.range mr, some (.error (e (mr - 1))))
      ∧ makeWebRequest mr op = (List.range mr, some (.ok none)) := by
  rw [makeApiRequest, makeWebRequest, List.range_eq_range']
  exact ⟨apiLoop_all_fail op e mr herr mr 0 (by omega) (by omega),
    webLoop_all_fail op e mr herr mr 0 (by omega) (by omega)⟩

/-- C4 witness: the amended theorem at `max_retries = 5` and the concrete
always-failing operation. -/
theorem C4_retry_exhaustion_witness :
    makeApiRequest 5 boomOp = ([0, 1, 2, 3, 4], some (.error "boom"))
      ∧ makeWebRequest 5 boomOp = ([0, 1, 2, 3, 4], some (.ok none)) := by
  have h := C4_retry_exhaustion 5 boomOp (fun _ => "boom") (by omega) (fun i => rfl)
  simpa using h

/-! ## RateLimiter / BatchScheduler: `fetch_all_player_stats`

`for i in range(0, len(player_ids), self.batch_size)` with slice
`player_ids[i:i + self.batch_size]` and an inter-batch delay guarded by
`if i + self.batch_size < len(player_ids)`.  `pyRange` is Python's
`range(start, stop, step)` for a positive step; `fetchBatches` is the list
of slices the loop processes, and `delayedBatchStarts` is the list of loop
indices after whose batch the inter-batch delay is taken. -/

def pyRange (start stop step : Nat) : List Nat :=
  if _h : 0 < step ∧ start < stop then
    start :: pyRange (start + step) stop step
  else []
termination_by stop - start
decreasing_by omega

def fetchBatches {α : Type} (bs : Nat) (items : List α) : List (List α) :=
  (pyRange 0 items.length bs).map (fun i => (items.drop i).take bs)

def delayedBatchStarts (bs n : Nat) : List Nat :=
  (pyRange 0 n bs).filter (fun i => i + bs < n)

def chunksRec {α : Type} (bs : Nat) (l : List α) : List (List α) :=
  if _h : 0 < bs then
    match l with
    | [] => []
    | x :: xs => ((x :: xs).take bs) :: chunksRec bs ((x :: xs).drop bs)
  else []
termination_by l.length
decreasing_by simp [List.length_drop]; omega

theorem pyRange_eq_nil (start stop step : Nat) (h : ¬(0 < step ∧ start < stop)) :
    pyRange start stop step = [] := by
  rw [pyRange, dif_neg h]

theorem pyRange_eq_cons (start stop step : Nat) (h : 0 < step ∧ start < stop) :
    pyRange start stop step = start :: pyRange (start + step) stop step := by
  conv =>
    lhs
    rw [pyRange]
  rw [dif_pos h]

theorem pyRange_shift (step k b a : Nat) :
    pyRange (a + k) (b + k) step = (pyRange a b step).map (· + k) := by
  have H : ∀ m a, b - a ≤ m → pyRange (a + k) (b + k) step = (pyRange a b step).map (· + k) := by
    intro m
    induction m with
    | zero =>
      intro a ha
      rw [pyRange_eq_nil (a + k) (b + k) step (by omega),
        pyRange_eq_nil a b step (by omega)]
      simp
    | succ n ih =>
      intro a ha
      by_cases hc : 0 < step ∧ a < b
      · rw [pyRange_eq_cons (a + k) (b + k) step ⟨hc.1, by omega⟩,
          pyRange_eq_cons a b step hc]
        simp only [List.map_cons]
        have := ih (a + step) (by omega)
        rw [show a + k + step = a + step + k by omega, this]
      · rw [pyRange_eq_nil (a + k) (b + k) step (by omega),
          pyRange_eq_nil a b step hc]
        simp
  exact H (b - a) a (le_refl _)

theorem chunksRec_nil {α : Type} (bs : Nat) : chunksRec bs ([] : List α) = [] := by
  rw [chunksRec.eq_def]
  split <;> rfl

theorem chunksRec_cons {α : Type} (bs : Nat) (l : List α) (hbs : 0 < bs) (hl : l ≠ []) :
    chunksRec bs l = l.take bs :: chunksRec bs (l.drop bs) := by
  cases l with
  | nil => exact absurd rfl hl
  | cons x xs =>
    conv =>
      lhs
      rw [chunksRec.eq_def]
    rw [dif_pos hbs]

theorem fetchBatches_eq_chunksRec {α : Type} (bs : Nat) (hbs : 0 < bs) :
    ∀ (items : List α), fetchBatches bs items = chunksRec bs items := by
  have H : ∀ (n : Nat) (items : List α), items.length ≤ n →
      fetchBatches bs items = chunksRec bs items := by
    intro n
    induction n with
    | zero =>
      intro items hlen
      have h0 : items = [] := List.length_eq_zero.1 (by omega)
      subst h0
      rw [fetchBatches, chunksRec_nil, pyRange_eq_nil 0 ([] : List α).length bs (by simp)]
      rfl
    | succ n ih =>
      intro items hlen
      rcases items with _ | ⟨x, xs⟩
      · rw [fetchBatches, chunksRec_nil, pyRange_eq_nil 0 ([] : List α).length bs (by simp)]
        rfl
      · have hne : (x :: xs) ≠ ([] : List α) := by simp
        have hpos : 0 < (x :: xs).length := by simp
        rw [chunksRec_cons bs (x :: xs) hbs hne, fetchBatches,
          pyRange_eq_cons 0 (x :: xs).length bs ⟨hbs, hpos⟩]
        simp only [List.map_cons, List.drop_zero, Nat.zero_add]
        congr 1
        by_cases hle : (x :: xs).length ≤ bs
        · rw [pyRange_eq_nil bs (x :: xs).length bs (by omega)]
          rw [List.drop_eq_nil_of_le hle, chunksRec_nil]
          rfl
        · push_neg at hle
          have h1 := pyRange_shift bs bs ((x :: xs).length - bs) 0
          rw [Nat.zero_add, Nat.sub_add_cancel (le_of_lt hle)] at h1
          rw [h1, List.map_map]
          have h2 : fetchBatches bs ((x :: xs).drop bs) = chunksRec bs ((x :: xs).drop bs) :=
            ih ((x :: xs).drop bs)
              (by
                simp only [List.length_drop, List.length_cons]
                simp only [List.length_cons] at hlen
                omega)
          rw [fetchBatches] at h2
          rw [← h2, List.length_drop]
          congr 1
          funext j
          simp only [Function.comp]
          rw [List.drop_drop, Nat.add_comm j bs]
  exact fun items => H items.length items (le_refl _)

theorem chunksRec_eq_nil_iff {α : Type} (bs : Nat) (l : List α) (hbs : 0 < bs) :
    chunksRec bs l = [] ↔ l = [] := by
  constructor
  · intro h
    cases l with
    | nil => rfl
    | cons x xs =>
      rw [chunksRec_cons bs (x :: xs) hbs (by simp)] at h
      exact absurd h (by simp)
  · intro h
    subst h
    exact chunksRec_nil bs

theorem chunksRec_join {α : Type} (bs : Nat) (hbs : 0 < bs) :
    ∀ (l : List α), (chunksRec bs l).flatten = l := by
  have H : ∀ (n : Nat) (l : List α), l.length ≤ n → (chunksRec bs l).flatten = l := by
    intro n
    induction n with
    | zero =>
      intro l hl
      have h0 : l = [] := List.length_eq_zero.1 (by omega)
      subst h0
      rw [chunksRec_nil]
      rfl
    | succ n ih =>
      intro l hl
      cases l with
      | nil => rw [chunksRec_nil]; rfl
      | cons x xs =>
        rw [chunksRec_cons bs (x :: xs) hbs (by simp), List.flatten_cons]
        rw [ih ((x :: xs).drop bs)
          (by simp only [List.length_drop, List.length_cons]
              simp only [List.length_cons] at hl
              omega)]
        exact List.take_append_drop bs (x :: xs)
  exact fun l => H l.length l (le_refl _)

theorem chunksRec_dropLast_sizes {α : Type} (bs : Nat) (hbs : 0 < bs) :
    ∀ (l : List α), ∀ c ∈ (chunksRec bs l).dropLast, c.length = bs := by
  have H : ∀ (n : Nat) (l : List α), l.length ≤ n →
      ∀ c ∈ (chunksRec bs l).dropLast, c.length = bs := by
    intro n
    induction n with
    | zero =>
      intro l hl c hc
      have h0 : l = [] := List.length_eq_zero.1 (by omega)
      subst h0
      rw [chunksRec_nil] at hc
      simp at hc
    | succ n ih =>
      intro l hl c hc
      cases l with
      | nil => rw [chunksRec_nil] at hc; simp at hc
      | cons x xs =>
        rw [chunksRec_cons bs (x :: xs) hbs (by simp)] at hc
        by_cases hrest : chunksRec bs ((x :: xs).drop bs) = []
        · rw [hrest] at hc
          simp at hc
        · rw [List.dropLast_cons_of_ne_nil hrest] at hc
          rcases List.mem_cons.1 hc with rfl | hmem
          · have hdrop : (x :: xs).drop bs ≠ [] :=
              fun h => hrest (by rw [h]; exact chunksRec_nil bs)
            have hlen : bs < (x :: xs).length := by
              by_contra hcon
              exact hdrop (List.drop_eq_nil_of_le (by omega))
            simp only [List.length_cons] at hlen
            simp [List.length_take, List.length_cons]
            omega
          · exact ih ((x :: xs).drop bs)
              (by simp only [List.length_drop, List.length_cons]
                  simp only [List.length_cons] at hl
                  omega) c hmem
  exact fun l => H l.length l (le_refl _)

theorem chunksRec_mem_sizes {α : Type} (bs : Nat) (hbs : 0 < bs) :
    ∀ (l : List α), ∀ c ∈ chunksRec bs l, c.length ≤ bs ∧ c ≠ [] := by
  have H : ∀ (n : Nat) (l : List α), l.length ≤ n →
      ∀ c ∈ chunksRec bs l, c.length ≤ bs ∧ c ≠ [] := by
    intro n
    induction n with
    | zero =>
      intro l hl c hc
      have h0 : l = [] := List.length_eq_zero.1 (by omega)
      subst h0
      rw [chunksRec_nil] at hc
      simp at hc
    | succ n ih =>
      intro l hl c hc
      cases l with
      | nil => rw [chunksRec_nil] at hc; simp at hc
      | cons x xs =>
        rw [chunksRec_cons bs (x :: xs) hbs (by simp)] at hc
        rcases List.mem_cons.1 hc with rfl | hmem
        · refine ⟨by simp [List.length_take], ?_⟩
          simp [List.take_eq_nil_iff]
          omega
        · exact ih ((x :: xs).drop bs)
            (by simp only [List.length_drop, List.length_cons]
                simp only [List.length_cons] at hl
                omega) c hmem
  exact fun l => H l.length l (le_refl _)

theorem pyRange_filter_dropLast (bs n : Nat) (hbs : 0 < bs) :
    ∀ (start : Nat), (pyRange start n bs).filter (fun i => i + bs < n)
      = (pyRange start n bs).dropLast := by
  have H : ∀ (m start : Nat), n - start ≤ m →
      (pyRange start n bs).filter (fun i => i + bs < n) = (pyRange start n bs).dropLast := by
    intro m
    induction m with
    | zero =>
      intro start hs
      rw [pyRange_eq_nil start n bs (by omega)]
      rfl
    | succ k ih =>
      intro start hs
      by_cases hc : start < n
      · rw [pyRange_eq_cons start n bs ⟨hbs, hc⟩]
        by_cases htail : start + bs < n
        · have htne : pyRange (start + bs) n bs ≠ [] := by
            rw [pyRange_eq_cons (start + bs) n bs ⟨hbs, htail⟩]
            simp
          rw [List.dropLast_cons_of_ne_nil htne, List.filter_cons]
          rw [if_pos (by simpa using htail)]
          rw [ih (start + bs) (by omega)]
        · rw [pyRange_eq_nil (start + bs) n bs (by omega)]
          simp only [List.filter_cons, List.filter_nil]
          rw [if_neg (by simpa using htail)]
          rfl
      · rw [pyRange_eq_nil start n bs (by omega)]
        rfl
  exact fun start => H (n - start) start (le_refl _)

/-- C7: with a positive batch size, the scheduler's slices concatenate back
to the item list, every non-final slice has exactly `batch_size` elements,
every slice is non-empty with at most `batch_size` elements, and the
inter-batch delay fires exactly after each non-final batch (so
`#batches - 1` times), never after the final one. -/
theorem C7_batch_partitioning {α : Type} (bs : Nat) (items : List α) (hbs : 0 < bs) :
    (fetchBatches bs items).flatten = items
      ∧ (∀ c ∈ (fetchBatches bs items).dropLast, c.length = bs)
      ∧ (∀ c ∈ fetchBatches bs items, c.length ≤ bs ∧ c ≠ [])
      ∧ delayedBatchStarts bs items.length = (pyRange 0 items.length bs).dropLast
      ∧ (delayedBatchStarts bs items.length).length = (fetchBatches bs items).length - 1 := by
  have heq := fetchBatches_eq_chunksRec bs hbs items
  have hfd := pyRange_filter_dropLast bs items.length hbs 0
  refine ⟨?_, ?_, ?_, ?_, ?_⟩
  · rw [heq]; exact chunksRec_join bs hbs items
  · rw [heq]; exact chunksRec_dropLast_sizes bs hbs items
  · rw [heq]; exact chunksRec_mem_sizes bs hbs items
  · rw [delayedBatchStarts]; exact hfd
  · rw [delayedBatchStarts, hfd, List.length_dropLast, fetchBatches, List.length_map]

/-- C7 witness: 12 items with `batch_size = 5` yield chunk sizes
`[5, 5, 2]` and exactly two delayed batch starts (after batch 1 and 2). -/
theorem C7_batch_partitioning_witness :
    ((0 : Nat) < 5 ∧ (List.range 12).length = 12)
      ∧ (fetchBatches 5 (List.range 12)).map List.length = [5, 5, 2]
      ∧ delayedBatchStarts 5 12 = [0, 5]
      ∧ (delayedBatchStarts 5 12).length = 2
      ∧ (fetchBatches 5 (List.range 12)).flatten = List.range 12 := by
  refine ⟨⟨by norm_num, by simp⟩, ?_, ?_, ?_, ?_⟩
  · simp [fetchBatches, pyRange]
  · simp [delayedBatchStarts, pyRange]
  · simp [delayedBatchStarts, pyRange]
  · exact (C7_batch_partitioning 5 (List.range 12) (by norm_num)).1

/-! ## FieldNormalizer: `parse_game_date`

`datetime.strptime` is tried with the formats
`['%Y-%m-%d', '%b %d, %Y', '%B %d, %Y', '%m/%d/%Y', '%m/%d/%y']` in order;
the first success is returned, otherwise `None`.  Each format is modelled
after CPython's `_strptime`: directives compile to regex alternations tried
in order with backtracking (`%m` = `1[0-2]|0[1-9]|[1-9]`,
`%d` = `3[01]|[12]\d|0[1-9]|[1-9]`, `%Y` = four digits, `%y` = two digits
mapped through the 1969/2068 pivot, `%b`/`%B` = locale month names sorted
by length, matched case-insensitively), a literal space matches one or more
whitespace characters, the whole string must be consumed, and the matched
fields must then form a valid calendar date (year 1..9999, day within the
month, Gregorian leap years) or the format raises and the next is tried. -/

structure PyDate where
  year : Nat
  month : Nat
  day : Nat
deriving DecidableEq, Repr

def isLeapYear (y : Nat) : Bool :=
  y % 4 = 0 && (y % 100 != 0 || y % 400 = 0)

def daysInMonth (y m : Nat) : Nat :=
  if m = 2 then (if isLeapYear y then 29 else 28)
  else if m = 4 || m = 6 || m = 9 || m = 11 then 30
  else 31

def mkValidDate (y m d : Nat) : Option PyDate :=
  if 1 ≤ y && y ≤ 9999 && 1 ≤ m && m ≤ 12 && 1 ≤ d && d ≤ daysInMonth y m then
    some ⟨y, m, d⟩
  else none

def stripPrefixCI : List Char → List Char → Option (List Char)
  | [], cs => some cs
  | _ :: _, [] => none
  | p :: ps, c :: cs => if c.toLower = p then stripPrefixCI ps cs else none

def altNum (alts : List (String × Nat)) (cs : List Char) : List (Nat × List Char) :=
  alts.filterMap (fun p => (stripPrefixCI p.1.data cs).map (fun rest => (p.2, rest)))

def monthNumAlts : List (String × Nat) :=
  [("10", 10), ("11", 11), ("12", 12),
   ("01", 1), ("02", 2), ("03", 3), ("04", 4), ("05", 5), ("06", 6), ("07", 7), ("08", 8), ("09", 9),
   ("1", 1), ("2", 2), ("3", 3), ("4", 4), ("5", 5), ("6", 6), ("7", 7), ("8", 8), ("9", 9)]

def dayNumAlts : List (String × Nat) :=
  [("30", 30), ("31", 31),
   ("10", 10), ("11", 11), ("12", 12), ("13", 13), ("14", 14), ("15", 15), ("16", 16),
   ("17", 17), ("18", 18), ("19", 19), ("20", 20), ("21", 21), ("22", 22), ("23", 23),
   ("24", 24), ("25", 25), ("26", 26), ("27", 27), ("28", 28), ("29", 29),
   ("01", 1), ("02", 2), ("03", 3), ("04", 4), ("05", 5), ("06", 6), ("07", 7), ("08", 8), ("09", 9),
   ("1", 1), ("2", 2), ("3", 3), ("4", 4), ("5", 5), ("6", 6), ("7", 7), ("8", 8), ("9", 9)]

def monthAbbrAlts : List (String × Nat) :=
  [("jan", 1), ("feb", 2), ("mar", 3), ("apr", 4), ("may", 5), ("jun", 6),
   ("jul", 7), ("aug", 8), ("sep", 9), ("oct", 10), ("nov", 11), ("dec", 12)]

def monthFullAlts : List (String × Nat) :=
  [("september", 9), ("february", 2), ("november", 11), ("december", 12),
   ("january", 1), ("october", 10), ("august", 8), ("march", 3), ("april", 4),
   ("june", 6), ("july", 7), ("may", 5)]

def toDigit (c : Char) : Nat := c.toNat - '0'.toNat

def year4 : List Char → Option (Nat × List Char)
  | c1 :: c2 :: c3 :: c4 :: rest =>
    if c1.isDigit && c2.isDigit && c3.isDigit && c4.isDigit then
      some (toDigit c1 * 1000 + toDigit c2 * 100 + toDigit c3 * 10 + toDigit c4, rest)
    else none
  | _ => none

def year2 : List Char → Option (Nat × List Char)
  | c1 :: c2 :: rest =>
    if c1.isDigit && c2.isDigit then some (toDigit c1 * 10 + toDigit c2, rest)
    else none
  | _ => none

def mapYear2 (y2 : Nat) : Nat := if y2 ≤ 68 then 2000 + y2 else 1900 + y2

def litCh (ch : Char) : List Char → Option (List Char)
  | c :: rest => if c = ch then some rest else none
  | [] => none

def wsPlus : List Char → Option (List Char)
  | c :: rest => if c.isWhitespace then some (rest.dropWhile Char.isWhitespace) else none
  | [] => none

def parseFmtISO (cs : List Char) : Option PyDate :=
  ((year4 cs).bind (fun yc =>
    (litCh '-' yc.2).bind (fun cs2 =>
      (altNum monthNumAlts cs2).findSome? (fun mc =>
        (litCh '-' mc.2).bind (fun cs3 =>
          (altNum dayNumAlts cs3).findSome? (fun dc =>
            if dc.2 = [] then some (yc.1, mc.1, dc.1) else none)))))).bind
    (fun t => mkValidDate t.1 t.2.1 t.2.2)

def parseFmtMonthName (alts : List (String × Nat)) (cs : List Char) : Option PyDate :=
  ((altNum alts cs).findSome? (fun mc =>
    (wsPlus mc.2).bind (fun cs2 =>
      (altNum dayNumAlts cs2).findSome? (fun dc =>
        (litCh ',' dc.2).bind (fun cs3 =>
          (wsPlus cs3).bind (fun cs4 =>
            (year4 cs4).bind (fun yc =>
              if yc.2 = [] then some (yc.1, mc.1, dc.1) else none))))))).bind
    (fun t => mkValidDate t.1 t.2.1 t.2.2)

def parseFmtSlash (useY2 : Bool) (cs : List Char) : Option PyDate :=
  ((altNum monthNumAlts cs).findSome? (fun mc =>
    (litCh '/' mc.2).bind (fun cs2 =>
      (altNum dayNumAlts cs2).findSome? (fun dc =>
        (litCh '/' dc.2).bind (fun cs3 =>
          if useY2 then
            (year2 cs3).bind (fun yc =>
              if yc.2 = [] then some (mapYear2 yc.1, mc.1, dc.1) else none)
          else
            (year4 cs3).bind (fun yc =>
              if yc.2 = [] then some (yc.1, mc.1, dc.1) else none)))))).bind
    (fun t => mkValidDate t.1 t.2.1 t.2.2)

def strptimeFormats : List (List Char → Option PyDate) :=
  [parseFmtISO, parseFmtMonthName monthAbbrAlts, parseFmtMonthName monthFullAlts,
   parseFmtSlash false, parseFmtSlash true]

def tryFormatsInOrder (cs : List Char) : Option PyDate :=
  strptimeFormats.findSome? (fun f => f cs)

def parseGameDate (v : PyVal) : Option PyDate :=
  match v with
  | .vStr s => if s = "" then none else tryFormatsInOrder s.data
  | _ => none


/-- C6: the date parser tries ISO `YYYY-MM-DD` first, then the month-name
formats (`%b` then `%B`), then the slash forms (`%m/%d/%Y` then
`%m/%d/%y`), returning the first successful parse; a string no format
accepts yields `none` (a reported failure), never a sentinel date.
Concretely `"2025-04-11"` parses via the ISO format, `"Apr 11, 2025"` via
the month-name format after ISO fails, and `"13/45/2025"` is rejected. -/
theorem C6_date_format_priority :
    (∀ cs d, parseFmtISO cs = some d → tryFormatsInOrder cs = some d)
      ∧ (∀ cs d, parseFmtISO cs = none →
          parseFmtMonthName monthAbbrAlts cs = some d → tryFormatsInOrder cs = some d)
      ∧ (∀ cs d, parseFmtISO cs = none → parseFmtMonthName monthAbbrAlts cs = none →
          parseFmtMonthName monthFullAlts cs = some d → tryFormatsInOrder cs = some d)
      ∧ (∀ cs d, parseFmtISO cs = none → parseFmtMonthName monthAbbrAlts cs = none →
          parseFmtMonthName monthFullAlts cs = none →
          parseFmtSlash false cs = some d → tryFormatsInOrder cs = some d)
      ∧ (∀ cs, parseFmtISO cs = none → parseFmtMonthName monthAbbrAlts cs = none →
          parseFmtMonthName monthFullAlts cs = none → parseFmtSlash false cs = none →
          parseFmtSlash true cs = none → tryFormatsInOrder cs = none)
      ∧ parseGameDate (.vStr "2025-04-11") = some ⟨2025, 4, 11⟩
      ∧ parseFmtISO "2025-04-11".data = some ⟨2025, 4, 11⟩
      ∧ parseGameDate (.vStr "Apr 11, 2025") = some ⟨2025, 4, 11⟩
      ∧ parseFmtISO "Apr 11, 2025".data = none
      ∧ parseFmtMonthName monthAbbrAlts "Apr 11, 2025".data = some ⟨2025, 4, 11⟩
      ∧ parseGameDate (.vStr "13/45/2025") = none := by
  refine ⟨?_, ?_, ?_, ?_, ?_, by decide, by decide, by decide, by decide, by decide, by decide⟩
  · intro cs d h
    simp [tryFormatsInOrder, strptimeFormats, List.findSome?, h]
  · intro cs d h1 h2
    simp [tryFormatsInOrder, strptimeFormats, List.findSome?, h1, h2]
  · intro cs d h1 h2 h3
    simp [tryFormatsInOrder, strptimeFormats, List.findSome?, h1, h2, h3]
  · intro cs d h1 h2 h3 h4
    simp [tryFormatsInOrder, strptimeFormats, List.findSome?, h1, h2, h3, h4]
  · intro cs h1 h2 h3 h4 h5
    simp [tryFormatsInOrder, strptimeFormats, List.findSome?, h1, h2, h3, h4, h5]

/-- C6 witness: the second-priority cascade applied at `"Apr 11, 2025"`. -/
theorem C6_date_format_priority_witness :
    parseFmtISO "Apr 11, 2025".data = none
      ∧ parseFmtMonthName monthAbbrAlts "Apr 11, 2025".data = some ⟨2025, 4, 11⟩
      ∧ tryFormatsInOrder "Apr 11, 2025".data = some ⟨2025, 4, 11⟩ :=
  ⟨by decide, by decide,
    C6_date_format_priority.2.1 "Apr 11, 2025".data ⟨2025, 4, 11⟩ (by decide) (by decide)⟩

/-! ## UpsertPersistenceLayer: `save_players_to_db` and `save_player_stats_to_db`

A table is an association list from key to row; `upsertKeyed` is
`INSERT ... ON CONFLICT (key) DO UPDATE SET <every non-key column> =
EXCLUDED.<column>`, i.e. a full overwrite of the conflicting row.  A
database carries `base` (committed state) and `cur` (the view inside the
open transaction); commit copies `cur` to `base`, rollback copies `base`
back to `cur`.  `save_players_to_db` is modelled with its per-row exception
handler (which calls `conn.rollback()` and, when logging the first error,
reads the `full_name` local — an UnboundLocalError, modelled as `.error`,
if no row has bound it yet).  `save_player_stats_to_db`'s per-row handler
only counts and continues.  A row-level exception is triggered by the data
itself: a missing `DISPLAY_FIRST_LAST`/`PERSON_ID` key (KeyError) or a
non-string value where `.split` is called (AttributeError). -/

abbrev RawRec := List (String × PyVal)

def upsertKeyed {K V : Type} [DecidableEq K] : List (K × V) → K → V → List (K × V)
  | [], k, v => [(k, v)]
  | e :: es, k, v => if e.1 = k then (k, v) :: es else e :: upsertKeyed es k v

structure PlayerRow where
  first_name : String
  last_name : String
  full_name : String
  team_id : PyVal
  pos : PyVal
  height_feet : PyVal
  height_inches : PyVal
  weight_lbs : PyVal
  birth_date : PyVal
  draft_year : PyVal
  draft_round : PyVal
  draft_number : PyVal
  college : PyVal
  country : PyVal
  experience_years : PyVal
  jersey_number : PyVal
deriving DecidableEq, Repr

def splitOnceAtSpace (cs : List Char) : List Char × Option (List Char) :=
  (cs.takeWhile (· != ' '),
    match cs.dropWhile (· != ' ') with
    | [] => none
    | _ :: rest => some rest)

def truncQ (q : ℚ) : ℤ := q.num / (q.den : ℤ)

def pyIntOfStr (s : String) : Option ℤ :=
  if s ≠ "" && s.data.all Char.isDigit then
    some (s.data.foldl (fun acc c => acc * 10 + (toDigit c : ℤ)) 0)
  else none

def weightToInt (v : PyVal) : PyVal :=
  match v with
  | .vNum q => .vNum (truncQ q)
  | .vStr s =>
    match pyIntOfStr s with
    | some n => .vNum n
    | none => .vNum 0
  | .vNone => .vNum 0

def stripAfterT (v : PyVal) : PyVal :=
  if pyTruthy v then
    match v with
    | .vStr s =>
      if s.data.contains 'T' then .vStr (String.mk (s.data.takeWhile (· != 'T')))
      else .vStr s
    | other => other
  else v

def buildPlayerRecord (raw : RawRec) : Except Unit (PyVal × PlayerRow) :=
  match pyGetStrict raw "DISPLAY_FIRST_LAST" with
  | none => .error ()
  | some fnv =>
    match fnv with
    | .vStr full_name =>
      let name_parts := splitOnceAtSpace full_name.data
      let first_name := String.mk name_parts.1
      let last_name := match name_parts.2 with
        | some rest => String.mk rest
        | none => ""
      match pyGetStrict raw "PERSON_ID" with
      | none => .error ()
      | some player_id =>
        let height_feet := pyGet raw "height_feet" .vNone
        let height_inches := pyGet raw "height_inches" .vNone
        let weight_lbs := pyGet raw "weight_lbs" .vNone
        .ok (player_id,
          { first_name := first_name
            last_name := last_name
            full_name := full_name
            team_id := pyGet raw "TEAM_ID" .vNone
            pos := pyGet raw "position" (.vStr "")
            height_feet := if height_feet = .vNone then .vNum 0 else height_feet
            height_inches := if height_inches = .vNone then .vNum 0 else height_inches
            weight_lbs := if weight_lbs = .vNone ∨ weight_lbs = .vStr "" then .vNum 0 else weightToInt weight_lbs
            birth_date := stripAfterT (pyGet raw "birth_date" .vNone)
            draft_year := pyGet raw "draft_year" (.vStr "Undrafted")
            draft_round := pyGet raw "draft_round" (.vStr "Undrafted")
            draft_number := pyGet raw "draft_number" (.vStr "Undrafted")
            college := pyGet raw "college" (.vStr "")
            country := pyGet raw "country" (.vStr "")
            experience_years := pyGet raw "experience_years" (.vNum 0)
            jersey_number := pyGet raw "jersey_number" (.vStr "") })
    | _ => .error ()

structure PlayersDb where
  base : List (PyVal × PlayerRow)
  cur : List (PyVal × PlayerRow)
  commits : Nat
deriving DecidableEq, Repr

structure PlayersRun where
  db : PlayersDb
  successful_inserts : Nat
  failed_inserts : Nat
  first_error_logged : Bool
  full_name_bound : Option PyVal
deriving DecidableEq, Repr

def savePlayersStep (st : PlayersRun) (raw : RawRec) : Except Unit PlayersRun :=
  match buildPlayerRecord raw with
  | .ok pr =>
    .ok { st with
      db := { st.db with cur := upsertKeyed st.db.cur pr.1 pr.2 }
      successful_inserts := st.successful_inserts + 1
      full_name_bound := some (.vStr pr.2.full_name) }
  | .error _ =>
    let bound := match pyGetStrict raw "DISPLAY_FIRST_LAST" with
      | some v => some v
      | none => st.full_name_bound
    if st.first_error_logged then
      .ok { st with
        db := { st.db with cur := st.db.base }
        failed_inserts := st.failed_inserts + 1
        full_name_bound := bound }
    else
      match bound with
      | none => .error ()
      | some _ =>
        .ok { st with
          db := { st.db with cur := st.db.base }
          failed_inserts := st.failed_inserts + 1
          first_error_logged := true
          full_name_bound := bound }

def savePlayersLoop : List RawRec → PlayersRun → Except Unit PlayersRun
  | [], st => .ok st
  | raw :: rest, st =>
    match savePlayersStep st raw with
    | .ok st1 => savePlayersLoop rest st1
    | .error e => .error e

def savePlayersToDb (rows : List RawRec) (db : PlayersDb) : Except Unit PlayersRun :=
  let st0 : PlayersRun :=
    { db := { db with cur := db.base }, successful_inserts := 0, failed_inserts := 0
      first_error_logged := false, full_name_bound := none }
  match savePlayersLoop rows st0 with
  | .ok st1 =>
    .ok { st1 with db := { st1.db with base := st1.db.cur, commits := st1.db.commits + 1 } }
  | .error e => .error e

structure StatsRow where
  game_id : PyVal
  player_id : PyVal
  team_id : Nat
  team_abbreviation : String
  team_name : PyVal
  game_date : PyDate
  matchup : String
  win_loss : PyVal
  minutes_played : PyVal
  points : PyVal
  field_goals_made : PyVal
  field_goals_attempted : PyVal
  field_goal_percentage : PyVal
  three_pointers_made : PyVal
  three_pointers_attempted : PyVal
  three_point_percentage : PyVal
  free_throws_made : PyVal
  free_throws_attempted : PyVal
  free_throw_percentage : PyVal
  offensive_rebounds : PyVal
  defensive_rebounds : PyVal
  total_rebounds : PyVal
  assists : PyVal
  steals : PyVal
  blocks : PyVal
  turnovers : PyVal
  personal_fouls : PyVal
  plus_minus : PyVal
deriving DecidableEq, Repr

def buildStatsRow (raw : RawRec) (game_id player_id : PyVal) (team_id : Nat)
    (team_abbr : String) (parsed_date : PyDate) (matchup : String) : StatsRow :=
  { game_id := game_id
    player_id := player_id
    team_id := team_id
    team_abbreviation := team_abbr
    team_name := pyOrV (pyGet raw "TEAM_NAME" (.vStr "")) (pyGet raw "Team_Name" (.vStr ""))
    game_date := parsed_date
    matchup := matchup
    win_loss := pyOrV (pyGet raw "WL" (.vStr "")) (pyGet raw "wl" (.vStr ""))
    minutes_played := pyOrV (pyGet raw "MIN" (.vNum 0)) (pyGet raw "Min" (.vNum 0))
    points := pyOrV (pyGet raw "PTS" (.vNum 0)) (pyGet raw "Pts" (.vNum 0))
    field_goals_made := pyOrV (pyGet raw "FGM" (.vNum 0)) (pyGet raw "Fgm" (.vNum 0))
    field_goals_attempted := pyOrV (pyGet raw "FGA" (.vNum 0)) (pyGet raw "Fga" (.vNum 0))
    field_goal_percentage := pyOrV (pyGet raw "FG_PCT" (.vNum 0)) (pyGet raw "FG_Pct" (.vNum 0))
    three_pointers_made := pyOrV (pyGet raw "FG3M" (.vNum 0)) (pyGet raw "FG3M" (.vNum 0))
    three_pointers_attempted := pyOrV (pyGet raw "FG3A" (.vNum 0)) (pyGet raw "FG3A" (.vNum 0))
    three_point_percentage := pyOrV (pyGet raw "FG3_PCT" (.vNum 0)) (pyGet raw "FG3_Pct" (.vNum 0))
    free_throws_made := pyOrV (pyGet raw "FTM" (.vNum 0)) (pyGet raw "Ftm" (.vNum 0))
    free_throws_attempted := pyOrV (pyGet raw "FTA" (.vNum 0)) (pyGet raw "Fta" (.vNum 0))
    free_throw_percentage := pyOrV (pyGet raw "FT_PCT" (.vNum 0)) (pyGet raw "FT_Pct" (.vNum 0))
    offensive_rebounds := pyOrV (pyGet raw "OREB" (.vNum 0)) (pyGet raw "Oreb" (.vNum 0))
    defensive_rebounds := pyOrV (pyGet raw "DREB" (.vNum 0)) (pyGet raw "Dreb" (.vNum 0))
    total_rebounds := pyOrV (pyGet raw "REB" (.vNum 0)) (pyGet raw "Reb" (.vNum 0))
    assists := pyOrV (pyGet raw "AST" (.vNum 0)) (pyGet raw "Ast" (.vNum 0))
    steals := pyOrV (pyGet raw "STL" (.vNum 0)) (pyGet raw "Stl" (.vNum 0))
    blocks := pyOrV (pyGet raw "BLK" (.vNum 0)) (pyGet raw "Blk" (.vNum 0))
    turnovers := pyOrV (pyGet raw "TOV" (.vNum 0)) (pyGet raw "Tov" (.vNum 0))
    personal_fouls := pyOrV (pyGet raw "PF" (.vNum 0)) (pyGet raw "Pf" (.vNum 0))
    plus_minus := pyOrV (pyGet raw "PLUS_MINUS" (.vNum 0)) (pyGet raw "Plus_Minus" (.vNum 0)) }

structure StatsDb where
  teams : List (String × Nat)
  base : List ((PyVal × PyVal) × StatsRow)
  cur : List ((PyVal × PyVal) × StatsRow)
  commits : Nat
deriving DecidableEq, Repr

structure StatsRun where
  db : StatsDb
  successful_inserts : Nat
  failed_inserts : Nat
deriving DecidableEq, Repr

def recTeamAbbr (raw : RawRec) : String :=
  match pyOrV (pyGet raw "MATCHUP" .vNone) (pyGet raw "matchup" .vNone) with
  | .vStr m => String.mk (m.data.takeWhile (· != ' '))
  | _ => ""

def saveStatsStep (st : StatsRun) (raw : RawRec) : StatsRun :=
  let game_id := pyOrV (pyOrV (pyGet raw "GAME_ID" .vNone) (pyGet raw "Game_ID" .vNone))
    (pyGet raw "game_id" .vNone)
  let player_id := pyOrV (pyOrV (pyGet raw "PLAYER_ID" .vNone) (pyGet raw "Player_ID" .vNone))
    (pyGet raw "player_id" .vNone)
  let game_date := pyOrV (pyOrV (pyGet raw "GAME_DATE" .vNone) (pyGet raw "Game_Date" .vNone))
    (pyGet raw "game_date" .vNone)
  let matchup := pyOrV (pyGet raw "MATCHUP" .vNone) (pyGet raw "matchup" .vNone)
  if pyTruthy game_id && pyTruthy player_id && pyTruthy game_date && pyTruthy matchup then
    match parseGameDate game_date with
    | none => { st with failed_inserts := st.failed_inserts + 1 }
    | some parsed =>
      match matchup with
      | .vStr m =>
        match st.db.teams.lookup (String.mk (m.data.takeWhile (· != ' '))) with
        | none => { st with failed_inserts := st.failed_inserts + 1 }
        | some team_id =>
          let row := buildStatsRow raw game_id player_id team_id
            (String.mk (m.data.takeWhile (· != ' '))) parsed m
          { st with
            db := { st.db with cur := upsertKeyed st.db.cur (game_id, player_id) row }
            successful_inserts := st.successful_inserts + 1 }
      | _ => { st with failed_inserts := st.failed_inserts + 1 }
  else { st with failed_inserts := st.failed_inserts + 1 }

def saveStatsLoop : List RawRec → StatsRun → StatsRun
  | [], st => st
  | raw :: rest, st => saveStatsLoop rest (saveStatsStep st raw)

def savePlayerStatsToDb (rows : List RawRec) (db : StatsDb) : StatsRun :=
  if rows.isEmpty then
    { db := db, successful_inserts := 0, failed_inserts := 0 }
  else
    let st0 : StatsRun :=
      { db := { db with cur := db.base }, successful_inserts := 0, failed_inserts := 0 }
    let st1 := saveStatsLoop rows st0
    { st1 with db := { st1.db with base := st1.db.cur, commits := st1.db.commits + 1 } }

def rowDuke : PlayerRow :=
  { first_name := "Kyrie", last_name := "Irving", full_name := "Kyrie Irving"
    team_id := .vNum 1610612742, pos := .vStr "PG"
    height_feet := .vNum 6, height_inches := .vNum 2, weight_lbs := .vNum 195
    birth_date := .vStr "1992-03-23", draft_year := .vStr "2011"
    draft_round := .vStr "1", draft_number := .vStr "1"
    college := .vStr "Duke", country := .vStr "USA"
    experience_years := .vNum 13, jersey_number := .vStr "11" }

def rawNoCollege : RawRec :=
  [("DISPLAY_FIRST_LAST", .vStr "Kyrie Irving"), ("PERSON_ID", .vNum 1),
   ("TEAM_ID", .vNum 1610612742)]

def dbDuke : PlayersDb :=
  { base := [(.vNum 1, rowDuke)], cur := [(.vNum 1, rowDuke)], commits := 0 }

def rawPlayerA : RawRec :=
  [("DISPLAY_FIRST_LAST", .vStr "LeBron James"), ("PERSON_ID", .vNum 2544)]

def rawNoName : RawRec := [("PERSON_ID", .vNum 3)]

def dbEmptyPlayers : PlayersDb := { base := [], cur := [], commits := 0 }

def rawXYZ : RawRec :=
  [("GAME_ID", .vStr "0022400001"), ("PLAYER_ID", .vNum 2544),
   ("GAME_DATE", .vStr "2025-04-11"), ("MATCHUP", .vStr "XYZ vs. BOS"),
   ("PTS", .vNum 30)]

def rawNoPct : RawRec :=
  [("GAME_ID", .vStr "0022400001"), ("PLAYER_ID", .vNum 2544),
   ("GAME_DATE", .vStr "2025-04-11"), ("MATCHUP", .vStr "BOS vs. DEN"),
   ("PTS", .vNum 30), ("FGM", .vNum 11), ("FGA", .vNum 21)]

def statsDb0 : StatsDb := { teams := [("BOS", 2)], base := [], cur := [], commits := 0 }

def statsRun0 : StatsRun := { db := statsDb0, successful_inserts := 0, failed_inserts := 0 }






theorem upsertKeyed_lookup_self {K V : Type} [DecidableEq K]
    (tbl : List (K × V)) (k : K) (v : V) :
    (upsertKeyed tbl k v).lookup k = some v := by
  induction tbl with
  | nil => simp [upsertKeyed, List.lookup]
  | cons e es ih =>
    rw [upsertKeyed]
    by_cases h : e.1 = k
    · rw [if_pos h]
      simp [List.lookup]
    · rw [if_neg h]
      have hb : (k == e.1) = false := by
        simp
        exact fun hc => h hc.symm
      simp [List.lookup, hb, ih]

theorem upsertKeyed_lookup_other {K V : Type} [DecidableEq K]
    (tbl : List (K × V)) (k k' : K) (v : V) (hne : k' ≠ k) :
    (upsertKeyed tbl k v).lookup k' = tbl.lookup k' := by
  have hbk : (k' == k) = false := by simp [hne]
  induction tbl with
  | nil => simp [upsertKeyed, List.lookup, hbk]
  | cons e es ih =>
    rw [upsertKeyed]
    by_cases h : e.1 = k
    · rw [if_pos h]
      have hb2 : (k' == e.1) = false := by
        rw [h]
        exact hbk
      simp [List.lookup, hbk, hb2]
    · rw [if_neg h]
      by_cases h2 : e.1 = k'
      · simp [List.lookup, h2]
      · have hb2 : (k' == e.1) = false := by
          simp
          exact fun hc => h2 hc.symm
        simp [List.lookup, hb2, ih]

theorem saveStatsStep_cases (st : StatsRun) (raw : RawRec) :
    (∃ key row, saveStatsStep st raw =
      { st with
        db := { st.db with cur := upsertKeyed st.db.cur key row }
        successful_inserts := st.successful_inserts + 1 })
      ∨ saveStatsStep st raw = { st with failed_inserts := st.failed_inserts + 1 } := by
  rw [saveStatsStep]
  split
  · split
    · right; rfl
    · split
      · split
        · right; rfl
        · left; exact ⟨_, _, rfl⟩
      · right; rfl
  · right; rfl

theorem saveStatsStep_commits (st : StatsRun) (raw : RawRec) :
    (saveStatsStep st raw).db.commits = st.db.commits
      ∧ (saveStatsStep st raw).db.teams = st.db.teams
      ∧ (saveStatsStep st raw).db.base = st.db.base := by
  rcases saveStatsStep_cases st raw with ⟨k, r, h⟩ | h <;> rw [h] <;> exact ⟨rfl, rfl, rfl⟩

theorem saveStatsLoop_commits (rows : List RawRec) :
    ∀ st : StatsRun, (saveStatsLoop rows st).db.commits = st.db.commits := by
  induction rows with
  | nil => intro st; rfl
  | cons raw rest ih =>
    intro st
    rw [saveStatsLoop, ih (saveStatsStep st raw), (saveStatsStep_commits st raw).1]

theorem saveStatsStep_team_missing (st : StatsRun) (raw : RawRec)
    (h : st.db.teams.lookup (recTeamAbbr raw) = none) :
    saveStatsStep st raw = { st with failed_inserts := st.failed_inserts + 1 } := by
  rw [saveStatsStep]
  split
  · split
    · rfl
    · rename_i parsed hparse
      split
      · rename_i m hm
        rw [recTeamAbbr, hm] at h
        rw [h]
      · rfl
  · rfl

theorem savePlayersStep_ok (st : PlayersRun) (raw : RawRec) (pr : PyVal × PlayerRow)
    (h : buildPlayerRecord raw = .ok pr) :
    savePlayersStep st raw = .ok { st with
      db := { st.db with cur := upsertKeyed st.db.cur pr.1 pr.2 }
      successful_inserts := st.successful_inserts + 1
      full_name_bound := some (.vStr pr.2.full_name) } := by
  rw [savePlayersStep, h]

theorem savePlayersStep_keyerror_rollback (st : PlayersRun) (raw : RawRec)
    (hkey : pyGetStrict raw "DISPLAY_FIRST_LAST" = none)
    (hlog : st.first_error_logged = true) :
    savePlayersStep st raw = .ok { st with
      db := { st.db with cur := st.db.base }
      failed_inserts := st.failed_inserts + 1 } := by
  have hbuild : buildPlayerRecord raw = .error () := by
    rw [buildPlayerRecord, hkey]
  rw [savePlayersStep, hbuild, hkey]
  simp only [hlog, if_pos]

theorem saveStatsLoop_team_missing (st : StatsRun) (raw : RawRec) (rest : List RawRec)
    (h : st.db.teams.lookup (recTeamAbbr raw) = none) :
    saveStatsLoop (raw :: rest) st
      = saveStatsLoop rest { st with failed_inserts := st.failed_inserts + 1 } := by
  rw [saveStatsLoop, saveStatsStep_team_missing st raw h]

def rowKyrieEmpty : PlayerRow :=
  { first_name := "Kyrie", last_name := "Irving", full_name := "Kyrie Irving"
    team_id := .vNum 1610612742, pos := .vStr ""
    height_feet := .vNum 0, height_inches := .vNum 0, weight_lbs := .vNum 0
    birth_date := .vNone, draft_year := .vStr "Undrafted"
    draft_round := .vStr "Undrafted", draft_number := .vStr "Undrafted"
    college := .vStr "", country := .vStr ""
    experience_years := .vNum 0, jersey_number := .vStr "" }

def pRun0 : PlayersRun :=
  { db := dbEmptyPlayers, successful_inserts := 0, failed_inserts := 0
    first_error_logged := false, full_name_bound := none }

def pRunLogged : PlayersRun :=
  { db := dbDuke, successful_inserts := 0, failed_inserts := 0
    first_error_logged := true, full_name_bound := some (.vStr "Kyrie Irving") }


/-- C1 (counterexample): a players row with `college = "Duke"` is
overwritten, not merged, by upserting a record whose college is
empty/absent: afterwards the committed row's college is `""`. -/
theorem C1_merge_on_null_fails :
    ((dbDuke.base.lookup (PyVal.vNum 1)).map (·.college) = some (.vStr "Duke"))
      ∧ (((savePlayersToDb [rawNoCollege] dbDuke).toOption.bind
            (fun r => r.db.base.lookup (PyVal.vNum 1))).map (·.college) = some (.vStr ""))
      ∧ PyVal.vStr "" ≠ PyVal.vStr "Duke" :=
  ⟨by decide, by decide, by decide⟩

/-- C1 (amended): the players upsert REPLACES every non-key column of a
conflicting row with the new record's values — biographical fields
included; nothing is merged on null.  Other keys are untouched, and a
successfully-built record is staged exactly as built. -/
theorem C1_upsert_full_overwrite (tbl : List (PyVal × PlayerRow)) (pid : PyVal) (row : PlayerRow) :
    (upsertKeyed tbl pid row).lookup pid = some row
      ∧ (∀ pid', pid' ≠ pid → (upsertKeyed tbl pid row).lookup pid' = tbl.lookup pid')
      ∧ (∀ (st : PlayersRun) (raw : RawRec) (pr : PyVal × PlayerRow),
          buildPlayerRecord raw = .ok pr →
          savePlayersStep st raw = .ok { st with
            db := { st.db with cur := upsertKeyed st.db.cur pr.1 pr.2 }
            successful_inserts := st.successful_inserts + 1
            full_name_bound := some (.vStr pr.2.full_name) }) :=
  ⟨upsertKeyed_lookup_self tbl pid row,
   fun pid' h => upsertKeyed_lookup_other tbl pid pid' row h,
   fun st raw pr h => savePlayersStep_ok st raw pr h⟩

/-- C1 witness: the upsert shape applied to the concrete no-college raw
record over an empty run state. -/
theorem C1_upsert_full_overwrite_witness :
    savePlayersStep pRun0 rawNoCollege = .ok { pRun0 with
      db := { pRun0.db with cur := upsertKeyed pRun0.db.cur (PyVal.vNum 1) rowKyrieEmpty }
      successful_inserts := pRun0.successful_inserts + 1
      full_name_bound := some (.vStr rowKyrieEmpty.full_name) } :=
  (C1_upsert_full_overwrite [] (PyVal.vNum 1) rowKyrieEmpty).2.2 pRun0 rawNoCollege
    (PyVal.vNum 1, rowKyrieEmpty) rfl

/-- C3 (counterexample): in `save_players_to_db` a batch of one good row
followed by one malformed row commits an EMPTY table: the per-row handler
calls `conn.rollback()`, discarding the previously staged good row, while
still reporting 1 success and 1 failure. -/
theorem C3_players_rollback_discards_staged :
    savePlayersToDb [rawPlayerA, rawNoName] dbEmptyPlayers
      = .ok { db := { base := [], cur := [], commits := 1 }
              successful_inserts := 1, failed_inserts := 1
              first_error_logged := true
              full_name_bound := some (.vStr "LeBron James") }
      ∧ ((savePlayersToDb [rawPlayerA, rawNoName] dbEmptyPlayers).toOption.bind
          (fun r => r.db.base.lookup (PyVal.vNum 2544))) = none :=
  ⟨rfl, by decide⟩

/-- C3 (amended): in `save_player_stats_to_db` a row either stages an
upsert and counts a success or only counts a failure — staged rows
survive a bad row — and the function commits exactly once per non-empty
batch; in `save_players_to_db`, however, the row-level handler also rolls
the open transaction back to the committed state, discarding earlier
staged rows of the batch. -/
theorem C3_row_failure_semantics :
    (∀ (st : StatsRun) (raw : RawRec),
      (∃ key row, saveStatsStep st raw = { st with
          db := { st.db with cur := upsertKeyed st.db.cur key row }
          successful_inserts := st.successful_inserts + 1 })
        ∨ saveStatsStep st raw = { st with failed_inserts := st.failed_inserts + 1 })
      ∧ (∀ (rows : List RawRec) (db : StatsDb), rows ≠ [] →
          (savePlayerStatsToDb rows db).db.commits = db.commits + 1)
      ∧ (∀ (st : PlayersRun) (raw : RawRec),
          pyGetStrict raw "DISPLAY_FIRST_LAST" = none → st.first_error_logged = true →
          savePlayersStep st raw = .ok { st with
            db := { st.db with cur := st.db.base }
            failed_inserts := st.failed_inserts + 1 }) := by
  refine ⟨saveStatsStep_cases, ?_, savePlayersStep_keyerror_rollback⟩
  intro rows db hne
  have hz : (savePlayerStatsToDb rows db).db.commits
      = (saveStatsLoop rows
          { db := { db with cur := db.base }
            successful_inserts := 0, failed_inserts := 0 }).db.commits + 1 := by
    rw [savePlayerStatsToDb, if_neg (by simpa using hne)]
  rw [hz, saveStatsLoop_commits]

/-- C3 witness: commit counting on a concrete one-row stats batch and the
players rollback shape on a concrete malformed record. -/
theorem C3_row_failure_semantics_witness :
    (savePlayerStatsToDb [rawXYZ] statsDb0).db.commits = 1
      ∧ savePlayersStep pRunLogged rawNoName = .ok { pRunLogged with
          db := { pRunLogged.db with cur := pRunLogged.db.base }
          failed_inserts := pRunLogged.failed_inserts + 1 } := by
  constructor
  · have h := C3_row_failure_semantics.2.1 [rawXYZ] statsDb0 (by simp)
    simpa using h
  · exact C3_row_failure_semantics.2.2 pRunLogged rawNoName rfl rfl

/-- C8: a stats record whose matchup team abbreviation is not in the
persisted teams table is counted as a failure, writes nothing (the
transaction view is unchanged), and the loop continues with the remaining
records. -/
theorem C8_unresolved_team_rejected (st : StatsRun) (raw : RawRec) (rest : List RawRec)
    (h : st.db.teams.lookup (recTeamAbbr raw) = none) :
    saveStatsStep st raw = { st with failed_inserts := st.failed_inserts + 1 }
      ∧ saveStatsLoop (raw :: rest) st
        = saveStatsLoop rest { st with failed_inserts := st.failed_inserts + 1 } :=
  ⟨saveStatsStep_team_missing st raw h, saveStatsLoop_team_missing st raw rest h⟩

/-- C8 witness: the record `"XYZ vs. BOS"` against a teams table holding
only `BOS` is rejected; the batch ends with no rows and one failure. -/
theorem C8_unresolved_team_rejected_witness :
    saveStatsStep statsRun0 rawXYZ = { statsRun0 with failed_inserts := 1 }
      ∧ (savePlayerStatsToDb [rawXYZ] statsDb0).db.base = []
      ∧ (savePlayerStatsToDb [rawXYZ] statsDb0).failed_inserts = 1 := by
  refine ⟨?_, by decide, by decide⟩
  have h := (C8_unresolved_team_rejected statsRun0 rawXYZ [] (by decide)).1
  simpa using h

/-- C5 (counterexample): a raw record with no `FG_PCT`/`FG_Pct` key is
stored with `field_goal_percentage = 0.0` — a number, not NULL. -/
theorem C5_missing_pct_stored_zero :
    (((saveStatsStep statsRun0 rawNoPct).db.cur.lookup
        (PyVal.vStr "0022400001", PyVal.vNum 2544)).map (·.field_goal_percentage))
      = some (.vNum 0)
      ∧ some (PyVal.vNum 0) ≠ some PyVal.vNone :=
  ⟨by decide, by decide⟩

/-- C5 (amended): when the raw source omits a field, BOTH count fields and
percentage fields default to 0 — the `row.get(key, 0)`/`row.get(key, 0.0)`
defaults — so missing percentages are stored as 0.0, never as NULL. -/
theorem C5_missing_field_defaults (raw : RawRec) (gid pid : PyVal) (tid : Nat) (abbr : String)
    (d : PyDate) (m : String)
    (h1 : raw.lookup "FG_PCT" = none) (h2 : raw.lookup "FG_Pct" = none)
    (h3 : raw.lookup "PTS" = none) (h4 : raw.lookup "Pts" = none) :
    (buildStatsRow raw gid pid tid abbr d m).field_goal_percentage = .vNum 0
      ∧ (buildStatsRow raw gid pid tid abbr d m).points = .vNum 0 := by
  constructor <;> simp [buildStatsRow, pyGet, pyOrV, pyTruthy, h1, h2, h3, h4]

def rawSparse : RawRec :=
  [("GAME_ID", .vStr "0022400002"), ("PLAYER_ID", .vNum 2544),
   ("GAME_DATE", .vStr "2025-04-11"), ("MATCHUP", .vStr "BOS vs. DEN")]

/-- C5 witness: the defaults theorem at a concrete sparse raw record. -/
theorem C5_missing_field_defaults_witness :
    (buildStatsRow rawSparse (PyVal.vStr "0022400002") (PyVal.vNum 2544) 2 "BOS"
        ⟨2025, 4, 11⟩ "BOS vs. DEN").field_goal_percentage = .vNum 0
      ∧ (buildStatsRow rawSparse (PyVal.vStr "0022400002") (PyVal.vNum 2544) 2 "BOS"
        ⟨2025, 4, 11⟩ "BOS vs. DEN").points = .vNum 0 :=
  C5_missing_field_defaults rawSparse (PyVal.vStr "0022400002") (PyVal.vNum 2544) 2 "BOS"
    ⟨2025, 4, 11⟩ "BOS vs. DEN" (by decide) (by decide) (by decide) (by decide)
